import Mathlib

/-!
Verification of `src/core/recursive_improvement/engines/oscillation_conflict_engine.py`.

This file gives a shallow embedding of the `OscillationConflictEngine` class and
proves properties of its conflict detection / resolution lifecycle.

Modelling notes (what is made explicit, what is abstracted):

* Python floats are modelled as exact rationals (`ℚ`); all constants involved
  (`0.3`, `0.1`, `0.9`, `0.5`, `0.001`, `113.3`, ...) are decimal literals, so
  the formulas are represented symbolically.
* The engine's only sources of nondeterminism are made explicit oracle inputs:
  - `clock : Nat → ℚ` gives the value of `time.time() % 1` observed by the
    n-th resolution attempt of a run (consumed via a `tick` counter);
  - `hashes : Nat → Int` gives the value of Python's salted `hash(conflict_id)`
    for the n-th conflict created during detection.  The conflict-id string
    itself (which embeds an md5 of the wall clock) plays no computational role
    other than through `hash()`, so only the hash value is modelled.
* Wall-clock timestamps (`datetime.now()`), the cosmetic `time.sleep` pacing
  in `_scan_for_conflicts`, log statements, and the free-form `details`
  dictionaries of conflicts and audit events are not modelled: no claim in
  scope depends on them.  Audit events are modelled by their `event_type` tag,
  in order of recording.
* Writing the audit JSON file to disk in `export_audit_trail` is out of scope;
  the function is modelled as its precondition check followed by returning the
  recorded trail.
-/

/-- The five conflict categories of the engine (`ConflictType` in the source). -/
inductive ConflictType where
  | DEPENDENCY : ConflictType
  | MERGE : ConflictType
  | RESOURCE : ConflictType
  | LOGIC : ConflictType
  | TEMPORAL : ConflictType
deriving DecidableEq, Fintype

/-- The twenty resolution strategies (`ResolutionStrategy` in the source). -/
inductive ResolutionStrategy where
  | VERSION_UPGRADE : ResolutionStrategy
  | VERSION_DOWNGRADE : ResolutionStrategy
  | DEPENDENCY_ISOLATION : ResolutionStrategy
  | CIRCULAR_BREAK : ResolutionStrategy
  | LINE_BY_LINE_MERGE : ResolutionStrategy
  | SEMANTIC_RESOLUTION : ResolutionStrategy
  | CONTEXT_PRESERVATION : ResolutionStrategy
  | CHANGE_ISOLATION : ResolutionStrategy
  | RESOURCE_THROTTLING : ResolutionStrategy
  | PRIORITY_ALLOCATION : ResolutionStrategy
  | DEFERRED_EXECUTION : ResolutionStrategy
  | RESOURCE_POOLING : ResolutionStrategy
  | CONSTRAINT_RELAXATION : ResolutionStrategy
  | CIRCULAR_IMPORT_RESOLUTION : ResolutionStrategy
  | LOGICAL_RESTRUCTURING : ResolutionStrategy
  | PARTIAL_EXECUTION : ResolutionStrategy
  | LOCK_OPTIMIZATION : ResolutionStrategy
  | SYNCHRONIZATION_BARRIER : ResolutionStrategy
  | DEADLOCK_PREVENTION : ResolutionStrategy
  | RACE_CONDITION_ELIMINATION : ResolutionStrategy
deriving DecidableEq, Fintype

open ConflictType ResolutionStrategy

/-- The fixed `self.strategy_map` set up in `__init__` (lines 118-149). -/
def strategy_map : ConflictType → List ResolutionStrategy
  | DEPENDENCY => [VERSION_UPGRADE, VERSION_DOWNGRADE, DEPENDENCY_ISOLATION, CIRCULAR_BREAK]
  | MERGE => [LINE_BY_LINE_MERGE, SEMANTIC_RESOLUTION, CONTEXT_PRESERVATION, CHANGE_ISOLATION]
  | RESOURCE => [RESOURCE_THROTTLING, PRIORITY_ALLOCATION, DEFERRED_EXECUTION, RESOURCE_POOLING]
  | LOGIC => [CONSTRAINT_RELAXATION, CIRCULAR_IMPORT_RESOLUTION, LOGICAL_RESTRUCTURING,
      PARTIAL_EXECUTION]
  | TEMPORAL => [LOCK_OPTIMIZATION, SYNCHRONIZATION_BARRIER, DEADLOCK_PREVENTION,
      RACE_CONDITION_ELIMINATION]

/-- A conflict record as produced by `_generate_simulated_conflicts`: its type, the
(salted, process-dependent) Python `hash` of its id string, the `resolved` flag and the
`resolution_attempts` counter.  The free-form `details` dict is not modelled. -/
structure Conflict where
  ctype : ConflictType
  hashVal : Int
  resolved : Bool
  resolution_attempts : Nat
deriving DecidableEq

/-- An audit-trail entry, identified by its `event_type` tag (timestamps and the
details map are wall-clock / free-form data, not modelled). -/
structure AuditEvent where
  event_type : String
deriving DecidableEq

/-- The engine state: the constructor parameters and the mutable counters set up in
`__init__` (lines 101-115).  `execution_start_time` / `execution_end_time` are
wall-clock values and are not modelled.  `max_cycles` is a Python `int`, so it is
modelled as `Int` (the constructor performs no validation). -/
structure Engine where
  base_frequency : ℚ
  max_frequency : ℚ
  max_cycles : Int
  convergence_threshold : ℚ
  enable_audit_trail : Bool
  current_frequency : ℚ
  cycles_completed : Nat
  conflicts_detected : Nat
  conflicts_resolved : Nat
  resolution_strategies_applied : ConflictType → ResolutionStrategy → Nat
  audit_trail : List AuditEvent

/-- Error taxonomy of the specification (§7): `ConfigurationError` for invalid
construction parameters, `InvalidState` for an audit export with no data (the
source raises a `ValueError` there). -/
inductive EngineError where
  | configurationError : EngineError
  | invalidState : EngineError
deriving DecidableEq

/-- The body of `OscillationConflictEngine.__init__` (lines 85-115): it stores the
parameters unchanged and initialises the counters; it performs no validation. -/
def mk_engine (base_frequency max_frequency : ℚ) (max_cycles : Int)
    (convergence_threshold : ℚ) (enable_audit_trail : Bool) : Engine where
  base_frequency := base_frequency
  max_frequency := max_frequency
  max_cycles := max_cycles
  convergence_threshold := convergence_threshold
  enable_audit_trail := enable_audit_trail
  current_frequency := base_frequency
  cycles_completed := 0
  conflicts_detected := 0
  conflicts_resolved := 0
  resolution_strategies_applied := fun _ _ => 0
  audit_trail := []

/-- Constructing an engine, with the failure channel a Python constructor would have:
`__init__` contains no `raise`, so construction always succeeds with the parameters
stored as-is. -/
def engine_init (base_frequency max_frequency : ℚ) (max_cycles : Int)
    (convergence_threshold : ℚ) (enable_audit_trail : Bool) : Except EngineError Engine :=
  .ok (mk_engine base_frequency max_frequency max_cycles convergence_threshold
    enable_audit_trail)

/-- The engine built with the default parameters of `__init__`
(`100.0, 10000.0, 1000, 0.001, True`). -/
def default_engine : Engine := mk_engine 100 10000 1000 0.001 true

/-- `_record_audit_event` (lines 605-620): append the event when the audit trail is
enabled, otherwise do nothing. -/
def record_audit_event (e : Engine) (ty : String) : Engine :=
  if e.enable_audit_trail then
    { e with audit_trail := e.audit_trail ++ [⟨ty⟩] }
  else e

/-- The lookup table inside `_scan_for_conflicts` (lines 304-317): which category
batches (type, count) are generated for each target label. -/
def scan_batches (target : String) : List (ConflictType × Nat) :=
  if target = "system" then [(DEPENDENCY, 2), (RESOURCE, 1), (TEMPORAL, 1)]
  else if target = "repository" then [(MERGE, 3), (LOGIC, 2)]
  else [(DEPENDENCY, 1), (MERGE, 1), (LOGIC, 1)]

/-- `_generate_simulated_conflicts` (lines 326-388): `count` fresh records of the
given type, unresolved, with zero attempts.  `startIdx` is the number of conflicts
created earlier in the same scan, so `hashes (startIdx + i)` is the hash of the
id of the i-th record of this batch. -/
def generate_simulated_conflicts (hashes : Nat → Int) (startIdx : Nat)
    (ctype : ConflictType) (count : Nat) : List Conflict :=
  (List.range count).map fun i =>
    { ctype := ctype, hashVal := hashes (startIdx + i), resolved := false,
      resolution_attempts := 0 }

/-- The sequence of `conflicts.update(self._generate_simulated_conflicts(...))` calls
in `_scan_for_conflicts`, flattened over the batch list of the chosen target (the
ids are md5-salted and distinct, so the dict union is a concatenation). -/
def generate_conflict_batches (hashes : Nat → Int) :
    Nat → List (ConflictType × Nat) → List Conflict
  | _, [] => []
  | idx, (ct, n) :: rest =>
      generate_simulated_conflicts hashes idx ct n ++
        generate_conflict_batches hashes (idx + n) rest

/-- `_check_convergence` (lines 524-546). -/
def check_convergence (e : Engine) (cycle : Nat) (remaining_conflicts : Nat) : Bool :=
  if remaining_conflicts = 0 then true
  else if 10 ≤ cycle ∧ 0 < e.conflicts_detected ∧
      (remaining_conflicts : ℚ) / (e.conflicts_detected : ℚ) ≤ e.convergence_threshold
    then true
  else false

/-- `_adjust_frequency` (lines 492-522).  In ℚ, division by zero yields 0; the
Python code can only reach this function from the resolution loop, where
`max_cycles ≥ 1`. -/
def adjust_frequency (e : Engine) (cycle : Nat) (remaining_conflicts : Nat) : Engine :=
  let cycle_factor : ℚ := min ((cycle : ℚ) / (e.max_cycles : ℚ)) 0.8
  let resolution_factor : ℚ :=
    if 0 < e.conflicts_detected then
      ((e.conflicts_detected : ℚ) - (remaining_conflicts : ℚ)) / (e.conflicts_detected : ℚ)
    else 0
  let new_frequency : ℚ := e.base_frequency +
    (e.max_frequency - e.base_frequency) * (0.2 + 0.4 * cycle_factor + 0.4 * resolution_factor)
  record_audit_event
    { e with current_frequency := max e.base_frequency (min new_frequency e.max_frequency) }
    "frequency_adjustment"

/-- Result of one `_apply_resolution_strategy` call: the success flag, the
probability it was gated on (also recorded in the audit details), the updated
conflict record, and the engine with the `resolution_attempt` event recorded. -/
structure AttemptResult where
  success : Bool
  success_probability : ℚ
  conflict : Conflict
  engine : Engine

/-- `_apply_resolution_strategy` (lines 438-490).  `time_fraction` is the value of
`time.time() % 1` observed by this attempt. -/
def apply_resolution_strategy (e : Engine) (conflict : Conflict)
    (strategy : ResolutionStrategy) (cycle : Nat) (time_fraction : ℚ) : AttemptResult :=
  let conflict := { conflict with resolution_attempts := conflict.resolution_attempts + 1 }
  let base_probability : ℚ := min (0.3 + (cycle : ℚ) * 0.1) 0.9
  let strategies := strategy_map conflict.ctype
  let strategy_effectiveness : ℚ :=
    if strategies.contains strategy then
      0.9 - (strategies.indexOf strategy : ℚ) * 0.1
    else 0.5
  let success_probability := base_probability * strategy_effectiveness
  { success := decide (time_fraction < success_probability)
    success_probability := success_probability
    conflict := conflict
    engine := record_audit_event e "resolution_attempt" }

/-- `_resolve_conflicts_cycle` (lines 390-436), fused with the caller's removal of the
newly resolved ids from `remaining_conflicts` (lines 199-202): the returned list is
the remaining (unresolved) conflicts in order.  `tick` indexes the `clock` oracle;
it advances once per attempt (one `time.time()` gate per attempt). -/
def resolve_conflicts_cycle (cycle : Nat) (clock : Nat → ℚ) :
    Engine → List Conflict → Nat → Engine × List Conflict × Nat
  | e, [], tick => (e, [], tick)
  | e, conflict :: rest, tick =>
    if conflict.resolved then
      let r := resolve_conflicts_cycle cycle clock e rest tick
      (r.1, conflict :: r.2.1, r.2.2)
    else
      let strategies := strategy_map conflict.ctype
      if strategies.isEmpty then
        let r := resolve_conflicts_cycle cycle clock e rest tick
        (r.1, conflict :: r.2.1, r.2.2)
      else
        let strategy_index := (((cycle : Int) + conflict.hashVal) % (strategies.length : Int)).toNat
        let strategy := strategies.getD strategy_index ResolutionStrategy.VERSION_UPGRADE
        let attempt := apply_resolution_strategy e conflict strategy cycle (clock tick)
        if attempt.success then
          let e2 := { attempt.engine with
            conflicts_resolved := attempt.engine.conflicts_resolved + 1
            resolution_strategies_applied := fun ct s =>
              if ct = conflict.ctype ∧ s = strategy then
                attempt.engine.resolution_strategies_applied ct s + 1
              else attempt.engine.resolution_strategies_applied ct s }
          resolve_conflicts_cycle cycle clock e2 rest (tick + 1)
        else
          let r := resolve_conflicts_cycle cycle clock attempt.engine rest (tick + 1)
          (r.1, attempt.conflict :: r.2.1, r.2.2)

/-- How (and at which cycle) the resolution loop of `detect_and_resolve_conflicts`
ended: `earlyEmpty` is the zero-conflicts return before the loop (lines 177-180),
`emptyAtCycle c` the break at the top of cycle `c` (lines 189-191), `converged c`
the break after the convergence check of cycle `c` (lines 205-207), `exhausted`
the exhaustion of `range(1, max_cycles + 1)`. -/
inductive ExitStatus where
  | earlyEmpty : ExitStatus
  | exhausted : ExitStatus
  | emptyAtCycle : Nat → ExitStatus
  | converged : Nat → ExitStatus
deriving DecidableEq

/-- State at the end of a run (or of the resolution loop): the engine, the still
unresolved conflicts, the next clock index, and how the loop exited. -/
structure LoopResult where
  engine : Engine
  remaining : List Conflict
  tick : Nat
  exit : ExitStatus

/-- The `for cycle in range(1, self.max_cycles + 1)` loop of
`detect_and_resolve_conflicts` (lines 188-209), as fuel recursion: `fuel` is the
number of cycles the range can still produce, `cycle` the next cycle number.
`self.cycles_completed = cycle` runs only when no break fired. -/
def resolution_loop (clock : Nat → ℚ) :
    Nat → Engine → List Conflict → Nat → Nat → LoopResult
  | 0, e, remaining, tick, _ => ⟨e, remaining, tick, .exhausted⟩
  | fuel + 1, e, remaining, tick, cycle =>
    if remaining.isEmpty then ⟨e, remaining, tick, .emptyAtCycle cycle⟩
    else
      let e1 := adjust_frequency e cycle remaining.length
      let r := resolve_conflicts_cycle cycle clock e1 remaining tick
      if check_convergence r.1 cycle r.2.1.length then ⟨r.1, r.2.1, r.2.2, .converged cycle⟩
      else resolution_loop clock fuel { r.1 with cycles_completed := cycle } r.2.1 r.2.2 (cycle + 1)

/-- `_finalize_execution` (lines 548-560): records the `engine_stop` event (the
wall-clock end time is not modelled). -/
def finalize_execution (e : Engine) : Engine :=
  record_audit_event e "engine_stop"

/-- `detect_and_resolve_conflicts` (lines 153-219), parameterised by the batch list
the scan's lookup produces for the target (the code after line 174 depends on the
scan only through the generated conflicts and the `scan_complete` event, which
`_scan_for_conflicts` records regardless of the count it found). -/
def detect_and_resolve_with_batches (e0 : Engine) (batches : List (ConflictType × Nat))
    (clock : Nat → ℚ) (hashes : Nat → Int) : LoopResult :=
  let e := { e0 with
    cycles_completed := 0
    conflicts_detected := 0
    conflicts_resolved := 0
    resolution_strategies_applied := fun _ _ => 0
    audit_trail := [] }
  let e := record_audit_event e "engine_start"
  let conflicts := generate_conflict_batches hashes 0 batches
  let e := record_audit_event e "scan_complete"
  let e := { e with conflicts_detected := conflicts.length }
  if conflicts.length = 0 then
    ⟨finalize_execution e, [], 0, .earlyEmpty⟩
  else
    let e := record_audit_event e "conflicts_detected"
    let r := resolution_loop clock e.max_cycles.toNat e conflicts 0 1
    let e2 := if r.remaining.isEmpty then r.engine
      else record_audit_event r.engine "unresolved_conflicts"
    ⟨finalize_execution e2, r.remaining, r.tick, r.exit⟩

/-- `detect_and_resolve_conflicts` on an actual target label: the scan's lookup
table applied, then the common body. -/
def detect_and_resolve_conflicts (e0 : Engine) (target : String)
    (clock : Nat → ℚ) (hashes : Nat → Int) : LoopResult :=
  detect_and_resolve_with_batches e0 (scan_batches target) clock hashes

/-- The non-wall-clock fields of the result dict built by `_generate_results`
(lines 562-603).  The time-derived entries (`execution_time`, `traditional_time`,
`time_saved`, `speed_improvement`) are wall-clock values, not modelled. -/
structure RunResult where
  target : String
  conflicts_detected : Nat
  conflicts_resolved : Nat
  resolution_rate : ℚ
  resolution_rate_improvement : ℚ
  cycles_completed : Nat
  efficiency_multiplier : ℚ

/-- `_generate_results` (lines 562-603), restricted to the modelled fields. -/
def generate_results (e : Engine) (target : String) : RunResult :=
  let resolution_ratio : ℚ :=
    if 0 < e.conflicts_detected then (e.conflicts_resolved : ℚ) / (e.conflicts_detected : ℚ)
    else 1
  { target := target
    conflicts_detected := e.conflicts_detected
    conflicts_resolved := e.conflicts_resolved
    resolution_rate := resolution_ratio * 100
    resolution_rate_improvement := resolution_ratio * 100 - 60
    cycles_completed := e.cycles_completed
    efficiency_multiplier := 113.3 * resolution_ratio }

/-- The `RunResult` of a full `detect_and_resolve_conflicts` call. -/
def run_results (e0 : Engine) (target : String) (clock : Nat → ℚ) (hashes : Nat → Int) :
    RunResult :=
  generate_results (detect_and_resolve_conflicts e0 target clock hashes).engine target

/-- `export_audit_trail` (lines 241-283): the guard on lines 251-252 (raise
`ValueError` when the trail is disabled or empty), then the trail content that the
JSON dump would serialise.  File-system I/O is out of scope. -/
def export_audit_trail (e : Engine) : Except EngineError (List AuditEvent) :=
  if !e.enable_audit_trail || e.audit_trail.isEmpty then .error .invalidState
  else .ok e.audit_trail

/-- Modelled from the spec's wording for the success-probability law (§4.1 step b):
`strategy_effectiveness` is `0.9 - 0.1*i` when the strategy occurs at 0-based
position `i` in the category's preferred-strategy list, and `0.5` when it does not
occur in that list. -/
def spec_strategy_effectiveness (ct : ConflictType) (s : ResolutionStrategy) : ℚ :=
  match (strategy_map ct).findIdx? (· == s) with
  | some i => 0.9 - (i : ℚ) * 0.1
  | none => 0.5

/-- Modelled from the spec's wording:
`success_probability = min(0.3 + cycle*0.1, 0.9) * strategy_effectiveness`. -/
def spec_success_probability (cycle : Nat) (ct : ConflictType)
    (s : ResolutionStrategy) : ℚ :=
  min (0.3 + (cycle : ℚ) * 0.1) 0.9 * spec_strategy_effectiveness ct s






/-! ## Helper lemmas -/

theorem record_audit_event_eq (e : Engine) (ty : String) :
    record_audit_event e ty =
      { e with audit_trail := e.audit_trail ++
          (if e.enable_audit_trail then [⟨ty⟩] else []) } := by
  unfold record_audit_event
  split
  · rfl
  · simp

theorem apply_resolution_strategy_engine (e : Engine) (c : Conflict)
    (s : ResolutionStrategy) (cycle : Nat) (t : ℚ) :
    (apply_resolution_strategy e c s cycle t).engine =
      record_audit_event e "resolution_attempt" := rfl

theorem adjust_frequency_eq (e : Engine) (cycle remaining : Nat) :
    ∃ f : ℚ, adjust_frequency e cycle remaining =
      record_audit_event { e with current_frequency := f } "frequency_adjustment" := by
  refine ⟨_, rfl⟩

theorem strategy_map_isEmpty (ct : ConflictType) : (strategy_map ct).isEmpty = false := by
  cases ct <;> rfl

theorem resolve_cycle_core (cycle : Nat) (clock : Nat → ℚ) :
    ∀ (l : List Conflict) (e : Engine) (tick : Nat),
    (resolve_conflicts_cycle cycle clock e l tick).1.conflicts_detected = e.conflicts_detected ∧
    (resolve_conflicts_cycle cycle clock e l tick).1.cycles_completed = e.cycles_completed ∧
    (resolve_conflicts_cycle cycle clock e l tick).1.max_cycles = e.max_cycles ∧
    (resolve_conflicts_cycle cycle clock e l tick).1.convergence_threshold
      = e.convergence_threshold ∧
    (resolve_conflicts_cycle cycle clock e l tick).1.enable_audit_trail
      = e.enable_audit_trail ∧
    (resolve_conflicts_cycle cycle clock e l tick).1.base_frequency = e.base_frequency ∧
    (resolve_conflicts_cycle cycle clock e l tick).1.max_frequency = e.max_frequency := by
  intro l
  induction l with
  | nil => intro e tick; exact ⟨rfl, rfl, rfl, rfl, rfl, rfl, rfl⟩
  | cons c rest ih =>
    intro e tick
    simp only [resolve_conflicts_cycle, apply_resolution_strategy_engine,
      record_audit_event_eq, strategy_map_isEmpty, Bool.false_eq_true, if_false]
    split
    · exact ih e tick
    · split
      · exact ⟨((ih _ _).1).trans rfl, ((ih _ _).2.1).trans rfl, ((ih _ _).2.2.1).trans rfl,
          ((ih _ _).2.2.2.1).trans rfl, ((ih _ _).2.2.2.2.1).trans rfl,
          ((ih _ _).2.2.2.2.2.1).trans rfl, ((ih _ _).2.2.2.2.2.2).trans rfl⟩
      · exact ⟨((ih _ _).1).trans rfl, ((ih _ _).2.1).trans rfl, ((ih _ _).2.2.1).trans rfl,
          ((ih _ _).2.2.2.1).trans rfl, ((ih _ _).2.2.2.2.1).trans rfl,
          ((ih _ _).2.2.2.2.2.1).trans rfl, ((ih _ _).2.2.2.2.2.2).trans rfl⟩

theorem resolve_cycle_balance (cycle : Nat) (clock : Nat → ℚ) :
    ∀ (l : List Conflict) (e : Engine) (tick : Nat),
    (resolve_conflicts_cycle cycle clock e l tick).1.conflicts_resolved
        + (resolve_conflicts_cycle cycle clock e l tick).2.1.length
      = e.conflicts_resolved + l.length := by
  intro l
  induction l with
  | nil => intro e tick; rfl
  | cons c rest ih =>
    intro e tick
    simp only [resolve_conflicts_cycle, apply_resolution_strategy_engine,
      record_audit_event_eq, strategy_map_isEmpty, Bool.false_eq_true, if_false]
    split
    · have h := ih e tick
      simp only [List.length_cons]
      omega
    · split
      · refine (ih _ _).trans ?_
        show e.conflicts_resolved + 1 + rest.length
          = e.conflicts_resolved + (c :: rest).length
        simp only [List.length_cons]
        omega
      · simp only [List.length_cons, ← Nat.add_assoc]
        exact congrArg (fun n => n + 1) ((ih _ _).trans rfl)

theorem resolve_cycle_trail_ne (cycle : Nat) (clock : Nat → ℚ) :
    ∀ (l : List Conflict) (e : Engine) (tick : Nat), e.audit_trail ≠ [] →
    (resolve_conflicts_cycle cycle clock e l tick).1.audit_trail ≠ [] := by
  intro l
  induction l with
  | nil => intro e tick h; exact h
  | cons c rest ih =>
    intro e tick h
    simp only [resolve_conflicts_cycle, apply_resolution_strategy_engine,
      record_audit_event_eq, strategy_map_isEmpty, Bool.false_eq_true, if_false]
    split
    · exact ih e tick h
    · split
      · refine ih _ _ ?_
        intro hcontr
        rw [List.append_eq_nil] at hcontr
        exact h hcontr.1
      · refine ih _ _ ?_
        intro hcontr
        rw [List.append_eq_nil] at hcontr
        exact h hcontr.1

theorem resolve_cycle_trail_disabled (cycle : Nat) (clock : Nat → ℚ) :
    ∀ (l : List Conflict) (e : Engine) (tick : Nat), e.enable_audit_trail = false →
    (resolve_conflicts_cycle cycle clock e l tick).1.audit_trail = e.audit_trail := by
  intro l
  induction l with
  | nil => intro e tick _; rfl
  | cons c rest ih =>
    intro e tick h
    simp only [resolve_conflicts_cycle, apply_resolution_strategy_engine,
      record_audit_event_eq, strategy_map_isEmpty, Bool.false_eq_true, if_false]
    split
    · exact ih e tick h
    · split
      · refine (ih _ _ ?_).trans ?_
        · exact h
        · show e.audit_trail ++ (if e.enable_audit_trail = true then _ else []) = e.audit_trail
          simp [h]
      · refine (ih _ _ ?_).trans ?_
        · exact h
        · show e.audit_trail ++ (if e.enable_audit_trail = true then _ else []) = e.audit_trail
          simp [h]


theorem adjust_frequency_core (e : Engine) (cycle n : Nat) :
    (adjust_frequency e cycle n).conflicts_detected = e.conflicts_detected ∧
    (adjust_frequency e cycle n).cycles_completed = e.cycles_completed ∧
    (adjust_frequency e cycle n).max_cycles = e.max_cycles ∧
    (adjust_frequency e cycle n).convergence_threshold = e.convergence_threshold ∧
    (adjust_frequency e cycle n).enable_audit_trail = e.enable_audit_trail ∧
    (adjust_frequency e cycle n).conflicts_resolved = e.conflicts_resolved ∧
    (adjust_frequency e cycle n).audit_trail = e.audit_trail ++
      (if e.enable_audit_trail = true then [⟨"frequency_adjustment"⟩] else []) := by
  simp [adjust_frequency, record_audit_event_eq]

theorem resolution_loop_core (clock : Nat → ℚ) :
    ∀ (fuel : Nat) (e : Engine) (l : List Conflict) (tick cycle : Nat),
    (resolution_loop clock fuel e l tick cycle).engine.conflicts_detected
      = e.conflicts_detected ∧
    (resolution_loop clock fuel e l tick cycle).engine.max_cycles = e.max_cycles ∧
    (resolution_loop clock fuel e l tick cycle).engine.enable_audit_trail
      = e.enable_audit_trail := by
  intro fuel
  induction fuel with
  | zero => intro e l tick cycle; exact ⟨rfl, rfl, rfl⟩
  | succ fuel ih =>
    intro e l tick cycle
    simp only [resolution_loop]
    split
    · exact ⟨rfl, rfl, rfl⟩
    · have hA := adjust_frequency_core e cycle l.length
      have hC := resolve_cycle_core cycle clock l (adjust_frequency e cycle l.length) tick
      split
      · exact ⟨hC.1.trans hA.1, hC.2.2.1.trans hA.2.2.1, hC.2.2.2.2.1.trans hA.2.2.2.2.1⟩
      · have hI := ih ({ (resolve_conflicts_cycle cycle clock
          (adjust_frequency e cycle l.length) l tick).1 with cycles_completed := cycle })
          (resolve_conflicts_cycle cycle clock (adjust_frequency e cycle l.length) l tick).2.1
          (resolve_conflicts_cycle cycle clock (adjust_frequency e cycle l.length) l tick).2.2
          (cycle + 1)
        exact ⟨hI.1.trans (hC.1.trans hA.1), hI.2.1.trans (hC.2.2.1.trans hA.2.2.1),
          hI.2.2.trans (hC.2.2.2.2.1.trans hA.2.2.2.2.1)⟩

theorem resolution_loop_balance (clock : Nat → ℚ) :
    ∀ (fuel : Nat) (e : Engine) (l : List Conflict) (tick cycle : Nat),
    (resolution_loop clock fuel e l tick cycle).engine.conflicts_resolved
        + (resolution_loop clock fuel e l tick cycle).remaining.length
      = e.conflicts_resolved + l.length := by
  intro fuel
  induction fuel with
  | zero => intro e l tick cycle; rfl
  | succ fuel ih =>
    intro e l tick cycle
    simp only [resolution_loop]
    split
    · rfl
    · have hA := adjust_frequency_core e cycle l.length
      have hB := resolve_cycle_balance cycle clock l (adjust_frequency e cycle l.length) tick
      rw [hA.2.2.2.2.2.1] at hB
      split
      · exact hB
      · refine (ih _ _ _ _).trans ?_
        show (resolve_conflicts_cycle cycle clock
              (adjust_frequency e cycle l.length) l tick).1.conflicts_resolved
            + (resolve_conflicts_cycle cycle clock
              (adjust_frequency e cycle l.length) l tick).2.1.length
          = e.conflicts_resolved + l.length
        omega

theorem resolution_loop_cycles (clock : Nat → ℚ) :
    ∀ (fuel : Nat) (e : Engine) (l : List Conflict) (tick cycle : Nat),
    e.cycles_completed ≤ e.max_cycles.toNat → cycle + fuel ≤ e.max_cycles.toNat + 1 →
    (resolution_loop clock fuel e l tick cycle).engine.cycles_completed
      ≤ (resolution_loop clock fuel e l tick cycle).engine.max_cycles.toNat := by
  intro fuel
  induction fuel with
  | zero => intro e l tick cycle h _; exact h
  | succ fuel ih =>
    intro e l tick cycle h hf
    simp only [resolution_loop]
    split
    · exact h
    · have hA := adjust_frequency_core e cycle l.length
      have hC := resolve_cycle_core cycle clock l (adjust_frequency e cycle l.length) tick
      split
      · rw [hC.2.1, hC.2.2.1, hA.2.1, hA.2.2.1]
        exact h
      · have hI := ih ({ (resolve_conflicts_cycle cycle clock
          (adjust_frequency e cycle l.length) l tick).1 with cycles_completed := cycle })
          (resolve_conflicts_cycle cycle clock (adjust_frequency e cycle l.length) l tick).2.1
          (resolve_conflicts_cycle cycle clock (adjust_frequency e cycle l.length) l tick).2.2
          (cycle + 1) ?_ ?_
        · exact hI
        · show cycle ≤ ((resolve_conflicts_cycle cycle clock
            (adjust_frequency e cycle l.length) l tick).1.max_cycles).toNat
          rw [hC.2.2.1, hA.2.2.1]
          omega
        · show cycle + 1 + fuel ≤ ((resolve_conflicts_cycle cycle clock
            (adjust_frequency e cycle l.length) l tick).1.max_cycles).toNat + 1
          rw [hC.2.2.1, hA.2.2.1]
          omega


theorem resolution_loop_trail_ne (clock : Nat → ℚ) :
    ∀ (fuel : Nat) (e : Engine) (l : List Conflict) (tick cycle : Nat),
    e.audit_trail ≠ [] →
    (resolution_loop clock fuel e l tick cycle).engine.audit_trail ≠ [] := by
  intro fuel
  induction fuel with
  | zero => intro e l tick cycle h; exact h
  | succ fuel ih =>
    intro e l tick cycle h
    simp only [resolution_loop]
    split
    · exact h
    · have hA := (adjust_frequency_core e cycle l.length).2.2.2.2.2.2
      have h1 : (adjust_frequency e cycle l.length).audit_trail ≠ [] := by
        rw [hA]
        intro hc
        rw [List.append_eq_nil] at hc
        exact h hc.1
      have h2 := resolve_cycle_trail_ne cycle clock l (adjust_frequency e cycle l.length) tick h1
      split
      · exact h2
      · exact ih _ _ _ _ h2

theorem resolution_loop_trail_disabled (clock : Nat → ℚ) :
    ∀ (fuel : Nat) (e : Engine) (l : List Conflict) (tick cycle : Nat),
    e.enable_audit_trail = false →
    (resolution_loop clock fuel e l tick cycle).engine.audit_trail = e.audit_trail := by
  intro fuel
  induction fuel with
  | zero => intro e l tick cycle _; rfl
  | succ fuel ih =>
    intro e l tick cycle h
    simp only [resolution_loop]
    split
    · rfl
    · have hA := adjust_frequency_core e cycle l.length
      have h1 : (adjust_frequency e cycle l.length).audit_trail = e.audit_trail := by
        rw [hA.2.2.2.2.2.2, h]
        simp
      have h2 := resolve_cycle_trail_disabled cycle clock l
        (adjust_frequency e cycle l.length) tick (hA.2.2.2.2.1.trans h)
      split
      · exact h2.trans h1
      · refine (ih _ _ _ _ ?_).trans ?_
        · show (resolve_conflicts_cycle cycle clock
              (adjust_frequency e cycle l.length) l tick).1.enable_audit_trail = false
          exact ((resolve_cycle_core cycle clock l
            (adjust_frequency e cycle l.length) tick).2.2.2.2.1.trans hA.2.2.2.2.1).trans h
        · show (resolve_conflicts_cycle cycle clock
              (adjust_frequency e cycle l.length) l tick).1.audit_trail = e.audit_trail
          exact h2.trans h1

theorem resolution_loop_exit_ne_early (clock : Nat → ℚ) :
    ∀ (fuel : Nat) (e : Engine) (l : List Conflict) (tick cycle : Nat),
    (resolution_loop clock fuel e l tick cycle).exit ≠ ExitStatus.earlyEmpty := by
  intro fuel
  induction fuel with
  | zero => intro e l tick cycle h; exact absurd h (by simp [resolution_loop])
  | succ fuel ih =>
    intro e l tick cycle
    simp only [resolution_loop]
    split
    · simp
    · split
      · simp
      · exact ih _ _ _ _

theorem resolution_loop_converged_cycles (clock : Nat → ℚ) :
    ∀ (fuel : Nat) (e : Engine) (l : List Conflict) (tick cycle c : Nat),
    e.cycles_completed + 1 = cycle →
    (resolution_loop clock fuel e l tick cycle).exit = ExitStatus.converged c →
    (resolution_loop clock fuel e l tick cycle).engine.cycles_completed = c - 1 := by
  intro fuel
  induction fuel with
  | zero =>
    intro e l tick cycle c _ hx
    exact absurd hx (by simp [resolution_loop])
  | succ fuel ih =>
    intro e l tick cycle c h hx
    simp only [resolution_loop] at hx ⊢
    by_cases hemp : l.isEmpty = true
    · rw [if_pos hemp] at hx
      exact absurd hx (by simp)
    · rw [if_neg hemp] at hx ⊢
      by_cases hconv : check_convergence
          (resolve_conflicts_cycle cycle clock
            (adjust_frequency e cycle l.length) l tick).1 cycle
          (resolve_conflicts_cycle cycle clock
            (adjust_frequency e cycle l.length) l tick).2.1.length = true
      · rw [if_pos hconv] at hx ⊢
        have hc : cycle = c := by simpa using hx
        have hcc := ((resolve_cycle_core cycle clock l
          (adjust_frequency e cycle l.length) tick).2.1).trans
          (adjust_frequency_core e cycle l.length).2.1
        show (resolve_conflicts_cycle cycle clock
          (adjust_frequency e cycle l.length) l tick).1.cycles_completed = c - 1
        rw [hcc]
        omega
      · rw [if_neg hconv] at hx ⊢
        exact ih _ _ _ _ _ rfl hx


theorem generate_simulated_conflicts_length (hashes : Nat → Int) (startIdx : Nat)
    (ct : ConflictType) (count : Nat) :
    (generate_simulated_conflicts hashes startIdx ct count).length = count := by
  simp [generate_simulated_conflicts]

theorem generate_conflict_batches_length (hashes : Nat → Int) :
    ∀ (b : List (ConflictType × Nat)) (idx : Nat),
    (generate_conflict_batches hashes idx b).length = (b.map Prod.snd).sum := by
  intro b
  induction b with
  | nil => intro idx; rfl
  | cons p rest ih =>
    intro idx
    simp [generate_conflict_batches, generate_simulated_conflicts_length, ih]

theorem check_convergence_of_ratio (e : Engine) (cycle n : Nat)
    (h10 : 10 ≤ cycle) (hd : 0 < e.conflicts_detected)
    (hr : (n : ℚ) / (e.conflicts_detected : ℚ) ≤ e.convergence_threshold) :
    check_convergence e cycle n = true := by
  simp only [check_convergence]
  split
  · rfl
  · rw [if_pos ⟨h10, hd, hr⟩]

theorem record_audit_event_detected (e : Engine) (ty : String) :
    (record_audit_event e ty).conflicts_detected = e.conflicts_detected := by
  simp [record_audit_event_eq]

theorem record_audit_event_resolved (e : Engine) (ty : String) :
    (record_audit_event e ty).conflicts_resolved = e.conflicts_resolved := by
  simp [record_audit_event_eq]

theorem record_audit_event_cycles (e : Engine) (ty : String) :
    (record_audit_event e ty).cycles_completed = e.cycles_completed := by
  simp [record_audit_event_eq]

theorem record_audit_event_max_cycles (e : Engine) (ty : String) :
    (record_audit_event e ty).max_cycles = e.max_cycles := by
  simp [record_audit_event_eq]

theorem record_audit_event_enable (e : Engine) (ty : String) :
    (record_audit_event e ty).enable_audit_trail = e.enable_audit_trail := by
  simp [record_audit_event_eq]

theorem finalize_execution_detected (e : Engine) :
    (finalize_execution e).conflicts_detected = e.conflicts_detected :=
  record_audit_event_detected e "engine_stop"

theorem finalize_execution_resolved (e : Engine) :
    (finalize_execution e).conflicts_resolved = e.conflicts_resolved :=
  record_audit_event_resolved e "engine_stop"

theorem finalize_execution_cycles (e : Engine) :
    (finalize_execution e).cycles_completed = e.cycles_completed :=
  record_audit_event_cycles e "engine_stop"

theorem finalize_execution_enable (e : Engine) :
    (finalize_execution e).enable_audit_trail = e.enable_audit_trail :=
  record_audit_event_enable e "engine_stop"

theorem run_batches_detected (e0 : Engine) (b : List (ConflictType × Nat))
    (clock : Nat → ℚ) (hashes : Nat → Int) :
    (detect_and_resolve_with_batches e0 b clock hashes).engine.conflicts_detected
      = (generate_conflict_batches hashes 0 b).length := by
  simp only [detect_and_resolve_with_batches]
  split
  · rw [finalize_execution_detected]
  · rw [finalize_execution_detected]
    split
    · rw [(resolution_loop_core clock _ _ _ _ _).1, record_audit_event_detected]
    · rw [record_audit_event_detected, (resolution_loop_core clock _ _ _ _ _).1,
        record_audit_event_detected]

theorem run_batches_enable (e0 : Engine) (b : List (ConflictType × Nat))
    (clock : Nat → ℚ) (hashes : Nat → Int) :
    (detect_and_resolve_with_batches e0 b clock hashes).engine.enable_audit_trail
      = e0.enable_audit_trail := by
  simp only [detect_and_resolve_with_batches]
  split
  · rw [finalize_execution_enable, record_audit_event_enable, record_audit_event_enable]
  · rw [finalize_execution_enable]
    split
    · rw [(resolution_loop_core clock _ _ _ _ _).2.2, record_audit_event_enable,
        record_audit_event_enable, record_audit_event_enable]
    · rw [record_audit_event_enable, (resolution_loop_core clock _ _ _ _ _).2.2,
        record_audit_event_enable, record_audit_event_enable, record_audit_event_enable]


theorem record_audit_event_trail (e : Engine) (ty : String) :
    (record_audit_event e ty).audit_trail = e.audit_trail ++
      (if e.enable_audit_trail = true then [⟨ty⟩] else []) := by
  simp [record_audit_event_eq]

theorem record_audit_event_trail_ne (e : Engine) (ty : String)
    (h : e.enable_audit_trail = true) :
    (record_audit_event e ty).audit_trail ≠ [] := by
  simp [record_audit_event_eq, h]

theorem resolution_loop_resolved_le (clock : Nat → ℚ) (fuel : Nat) (e : Engine)
    (l : List Conflict) (tick cycle : Nat)
    (h : e.conflicts_resolved + l.length ≤ e.conflicts_detected) :
    (resolution_loop clock fuel e l tick cycle).engine.conflicts_resolved
      ≤ (resolution_loop clock fuel e l tick cycle).engine.conflicts_detected := by
  have hb := resolution_loop_balance clock fuel e l tick cycle
  have hc := (resolution_loop_core clock fuel e l tick cycle).1
  omega

theorem run_batches_invariant (e0 : Engine) (b : List (ConflictType × Nat))
    (clock : Nat → ℚ) (hashes : Nat → Int) :
    (detect_and_resolve_with_batches e0 b clock hashes).engine.conflicts_resolved
      ≤ (detect_and_resolve_with_batches e0 b clock hashes).engine.conflicts_detected ∧
    (detect_and_resolve_with_batches e0 b clock hashes).engine.cycles_completed
      ≤ e0.max_cycles.toNat := by
  simp only [detect_and_resolve_with_batches]
  split
  · constructor
    · simp only [finalize_execution_resolved, record_audit_event_resolved]
      exact Nat.zero_le _
    · simp only [finalize_execution_cycles, record_audit_event_cycles]
      exact Nat.zero_le _
  · constructor
    · simp only [finalize_execution_resolved, finalize_execution_detected]
      split
      · refine resolution_loop_resolved_le clock _ _ _ _ _ ?_
        simp only [record_audit_event_resolved, record_audit_event_detected]
        simp
      · simp only [record_audit_event_resolved, record_audit_event_detected]
        refine resolution_loop_resolved_le clock _ _ _ _ _ ?_
        simp only [record_audit_event_resolved, record_audit_event_detected]
        simp
    · simp only [finalize_execution_cycles]
      split
      · refine le_of_le_of_eq (resolution_loop_cycles clock _ _ _ _ _ ?_ ?_) ?_
        · simp only [record_audit_event_cycles, record_audit_event_max_cycles]
          exact Nat.zero_le _
        · omega
        · rw [(resolution_loop_core clock _ _ _ _ _).2.1]
          simp only [record_audit_event_max_cycles]
      · simp only [record_audit_event_cycles]
        refine le_of_le_of_eq (resolution_loop_cycles clock _ _ _ _ _ ?_ ?_) ?_
        · simp only [record_audit_event_cycles, record_audit_event_max_cycles]
          exact Nat.zero_le _
        · omega
        · rw [(resolution_loop_core clock _ _ _ _ _).2.1]
          simp only [record_audit_event_max_cycles]


theorem run_batches_trail_ne (e0 : Engine) (b : List (ConflictType × Nat))
    (clock : Nat → ℚ) (hashes : Nat → Int) (h : e0.enable_audit_trail = true) :
    (detect_and_resolve_with_batches e0 b clock hashes).engine.audit_trail ≠ [] := by
  simp only [detect_and_resolve_with_batches, finalize_execution]
  split
  · refine record_audit_event_trail_ne _ _ ?_
    simp only [record_audit_event_enable]
    exact h
  · refine record_audit_event_trail_ne _ _ ?_
    split
    · rw [(resolution_loop_core clock _ _ _ _ _).2.2]
      simp only [record_audit_event_enable]
      exact h
    · simp only [record_audit_event_enable]
      rw [(resolution_loop_core clock _ _ _ _ _).2.2]
      simp only [record_audit_event_enable]
      exact h

theorem record_audit_event_disabled (e : Engine) (ty : String)
    (h : e.enable_audit_trail = false) : record_audit_event e ty = e := by
  simp [record_audit_event, h]

theorem resolution_loop_enable (clock : Nat → ℚ) (fuel : Nat) (e : Engine)
    (l : List Conflict) (tick cycle : Nat) :
    (resolution_loop clock fuel e l tick cycle).engine.enable_audit_trail
      = e.enable_audit_trail :=
  (resolution_loop_core clock fuel e l tick cycle).2.2

theorem run_batches_trail_disabled (e0 : Engine) (b : List (ConflictType × Nat))
    (clock : Nat → ℚ) (hashes : Nat → Int) (h : e0.enable_audit_trail = false) :
    (detect_and_resolve_with_batches e0 b clock hashes).engine.audit_trail = [] := by
  simp only [detect_and_resolve_with_batches, finalize_execution]
  split
  · simp [record_audit_event_disabled, record_audit_event_enable, h]
  · simp only [record_audit_event_disabled, record_audit_event_enable,
      resolution_loop_enable, h]
    split
    · simp only [record_audit_event_trail, resolution_loop_enable,
        record_audit_event_enable, h, Bool.false_eq_true, if_false, List.append_nil]
      refine (resolution_loop_trail_disabled clock _ _ _ _ _ ?_).trans ?_
      · simp [record_audit_event_enable, h]
      · simp [record_audit_event_disabled, record_audit_event_enable, h]
    · simp only [record_audit_event_trail, resolution_loop_enable,
        record_audit_event_enable, h, Bool.false_eq_true, if_false, List.append_nil]
      refine (resolution_loop_trail_disabled clock _ _ _ _ _ ?_).trans ?_
      · simp [record_audit_event_enable, h]
      · simp [record_audit_event_disabled, record_audit_event_enable, h]

theorem run_batches_zero (e0 : Engine) (b : List (ConflictType × Nat))
    (clock : Nat → ℚ) (hashes : Nat → Int)
    (hlen : (generate_conflict_batches hashes 0 b).length = 0)
    (hen : e0.enable_audit_trail = true) :
    (detect_and_resolve_with_batches e0 b clock hashes).engine.conflicts_resolved = 0 ∧
    (detect_and_resolve_with_batches e0 b clock hashes).engine.cycles_completed = 0 ∧
    (detect_and_resolve_with_batches e0 b clock hashes).engine.audit_trail.map
      AuditEvent.event_type = ["engine_start", "scan_complete", "engine_stop"] ∧
    (detect_and_resolve_with_batches e0 b clock hashes).exit = ExitStatus.earlyEmpty := by
  simp only [detect_and_resolve_with_batches]
  rw [if_pos hlen]
  refine ⟨?_, ?_, ?_, rfl⟩
  · simp only [finalize_execution_resolved, record_audit_event_resolved]
  · simp only [finalize_execution_cycles, record_audit_event_cycles]
  · simp only [finalize_execution, record_audit_event_trail, record_audit_event_enable, hen]
    simp

theorem run_batches_exit_ne_early (e0 : Engine) (b : List (ConflictType × Nat))
    (clock : Nat → ℚ) (hashes : Nat → Int)
    (hne : (generate_conflict_batches hashes 0 b).length ≠ 0) :
    (detect_and_resolve_with_batches e0 b clock hashes).exit ≠ ExitStatus.earlyEmpty := by
  simp only [detect_and_resolve_with_batches]
  rw [if_neg hne]
  exact resolution_loop_exit_ne_early clock _ _ _ _ _

theorem run_batches_converged (e0 : Engine) (b : List (ConflictType × Nat))
    (clock : Nat → ℚ) (hashes : Nat → Int) (c : Nat)
    (hx : (detect_and_resolve_with_batches e0 b clock hashes).exit
      = ExitStatus.converged c) :
    (detect_and_resolve_with_batches e0 b clock hashes).engine.cycles_completed
      = c - 1 := by
  simp only [detect_and_resolve_with_batches] at hx ⊢
  by_cases hlen : (generate_conflict_batches hashes 0 b).length = 0
  · rw [if_pos hlen] at hx
    exact absurd hx (by simp)
  · rw [if_neg hlen] at hx ⊢
    dsimp only at hx
    simp only [finalize_execution_cycles]
    split
    · refine resolution_loop_converged_cycles clock _ _ _ _ _ _ ?_ ?_
      · simp only [record_audit_event_cycles]
      · exact hx
    · rw [record_audit_event_cycles]
      refine resolution_loop_converged_cycles clock _ _ _ _ _ _ ?_ ?_
      · simp only [record_audit_event_cycles]
      · exact hx


theorem strategy_effectiveness_agrees (ct : ConflictType) (s : ResolutionStrategy) :
    (if (strategy_map ct).contains s = true then
        (0.9 : ℚ) - ((strategy_map ct).indexOf s : ℚ) * 0.1
      else (0.5 : ℚ)) = spec_strategy_effectiveness ct s := by
  revert ct s
  with_unfolding_all decide

/-! ## Claims -/

/-- Claim C1: for every run of `detect_and_resolve_conflicts` (over any engine with a
non-negative `max_cycles`, per §7 any other configuration is an erroneous
construction), the final state satisfies `conflicts_resolved ≤ conflicts_detected` and
`cycles_completed ≤ max_cycles`; and at every point during the run — i.e. for every
state the resolution loop can be in — the loop preserves these bounds. -/
theorem claim_C1 (e0 : Engine) (target : String) (clock : Nat → ℚ) (hashes : Nat → Int)
    (hmc : 0 ≤ e0.max_cycles) :
    ((detect_and_resolve_conflicts e0 target clock hashes).engine.conflicts_resolved
        ≤ (detect_and_resolve_conflicts e0 target clock hashes).engine.conflicts_detected ∧
     ((detect_and_resolve_conflicts e0 target clock hashes).engine.cycles_completed : Int)
        ≤ e0.max_cycles) ∧
    (∀ (fuel : Nat) (e : Engine) (l : List Conflict) (tick cycle : Nat),
      e.conflicts_resolved + l.length ≤ e.conflicts_detected →
      (resolution_loop clock fuel e l tick cycle).engine.conflicts_resolved
        ≤ (resolution_loop clock fuel e l tick cycle).engine.conflicts_detected) ∧
    (∀ (fuel : Nat) (e : Engine) (l : List Conflict) (tick cycle : Nat),
      e.cycles_completed ≤ e.max_cycles.toNat → cycle + fuel ≤ e.max_cycles.toNat + 1 →
      (resolution_loop clock fuel e l tick cycle).engine.cycles_completed
        ≤ e.max_cycles.toNat) := by
  refine ⟨⟨?_, ?_⟩, ?_, ?_⟩
  · exact (run_batches_invariant e0 (scan_batches target) clock hashes).1
  · have h := (run_batches_invariant e0 (scan_batches target) clock hashes).2
    show ((detect_and_resolve_with_batches e0 (scan_batches target) clock
      hashes).engine.cycles_completed : Int) ≤ e0.max_cycles
    omega
  · intro fuel e l tick cycle h
    exact resolution_loop_resolved_le clock fuel e l tick cycle h
  · intro fuel e l tick cycle h1 h2
    have h := resolution_loop_cycles clock fuel e l tick cycle h1 h2
    rwa [(resolution_loop_core clock fuel e l tick cycle).2.1] at h

/-- Witness for C1 at the default engine, target `"system"`, and concrete oracles. -/
theorem claim_C1_witness :
    0 ≤ default_engine.max_cycles ∧
    ((detect_and_resolve_conflicts default_engine "system" (fun _ => (0 : ℚ))
        (fun _ => 0)).engine.conflicts_resolved
      ≤ (detect_and_resolve_conflicts default_engine "system" (fun _ => (0 : ℚ))
        (fun _ => 0)).engine.conflicts_detected ∧
     ((detect_and_resolve_conflicts default_engine "system" (fun _ => (0 : ℚ))
        (fun _ => 0)).engine.cycles_completed : Int) ≤ default_engine.max_cycles) :=
  ⟨by with_unfolding_all decide,
   (claim_C1 default_engine "system" (fun _ => 0) (fun _ => 0)
      (by with_unfolding_all decide)).1⟩

/-- Claim C2: detection is a deterministic lookup on the target label — the reported
`conflicts_detected` equals the sum of the batch sizes of the target's lookup entry;
`"system"` yields 4 and `"repository"` yields 5, for every engine and every oracle. -/
theorem claim_C2 (e0 : Engine) (clock : Nat → ℚ) (hashes : Nat → Int) :
    (∀ target : String, (run_results e0 target clock hashes).conflicts_detected
        = ((scan_batches target).map Prod.snd).sum) ∧
    (run_results e0 "system" clock hashes).conflicts_detected = 4 ∧
    (run_results e0 "repository" clock hashes).conflicts_detected = 5 := by
  have h : ∀ target : String, (run_results e0 target clock hashes).conflicts_detected
      = ((scan_batches target).map Prod.snd).sum := by
    intro target
    show (detect_and_resolve_with_batches e0 (scan_batches target) clock
        hashes).engine.conflicts_detected = ((scan_batches target).map Prod.snd).sum
    rw [run_batches_detected, generate_conflict_batches_length]
  refine ⟨h, ?_, ?_⟩
  · rw [h]
    rfl
  · rw [h]
    rfl

/-- Claim C3: convergence law — whenever the resolution loop is about to run cycle
`c ≥ 10` with a nonempty unresolved set, the detection count is positive, and the
ratio of unresolved conflicts (after cycle c's resolution attempts) to
`conflicts_detected` is at most `convergence_threshold`, the loop exits at exactly
cycle `c` (exit status `converged c`), never executing a later cycle. -/
theorem claim_C3 (e : Engine) (l : List Conflict) (clock : Nat → ℚ)
    (tick cycle fuel : Nat) (hfuel : 0 < fuel) (hne : l ≠ []) (h10 : 10 ≤ cycle)
    (hd : 0 < e.conflicts_detected)
    (hr : ((resolve_conflicts_cycle cycle clock (adjust_frequency e cycle l.length) l
        tick).2.1.length : ℚ) / (e.conflicts_detected : ℚ) ≤ e.convergence_threshold) :
    (resolution_loop clock fuel e l tick cycle).exit = ExitStatus.converged cycle := by
  cases fuel with
  | zero => omega
  | succ f =>
    simp only [resolution_loop]
    have hemp : ¬(l.isEmpty = true) := by simp [hne]
    rw [if_neg hemp]
    have hc : check_convergence (resolve_conflicts_cycle cycle clock
        (adjust_frequency e cycle l.length) l tick).1 cycle
        (resolve_conflicts_cycle cycle clock
          (adjust_frequency e cycle l.length) l tick).2.1.length = true := by
      refine check_convergence_of_ratio _ _ _ h10 ?_ ?_
      · rw [(resolve_cycle_core cycle clock l (adjust_frequency e cycle l.length) tick).1,
          (adjust_frequency_core e cycle l.length).1]
        exact hd
      · rw [(resolve_cycle_core cycle clock l (adjust_frequency e cycle l.length) tick).1,
          (adjust_frequency_core e cycle l.length).1,
          (resolve_cycle_core cycle clock l
            (adjust_frequency e cycle l.length) tick).2.2.2.1,
          (adjust_frequency_core e cycle l.length).2.2.2.1]
        exact hr
    rw [if_pos hc]

/-- Witness for C3: a one-conflict engine with threshold 1 at cycle 10 whose attempt
fails (clock fraction 1), so the unresolved ratio is 1 ≤ 1 and the loop exits at 10. -/
theorem claim_C3_witness :
    ((resolve_conflicts_cycle 10 (fun _ => 1)
        (adjust_frequency { mk_engine 100 10000 1000 1 true with conflicts_detected := 1 }
          10 1) [⟨ConflictType.DEPENDENCY, 0, false, 0⟩] 0).2.1.length : ℚ) / 1 ≤ 1 ∧
    (resolution_loop (fun _ => 1) 5
        { mk_engine 100 10000 1000 1 true with conflicts_detected := 1 }
        [⟨ConflictType.DEPENDENCY, 0, false, 0⟩] 0 10).exit = ExitStatus.converged 10 :=
  ⟨by with_unfolding_all decide,
   claim_C3 { mk_engine 100 10000 1000 1 true with conflicts_detected := 1 }
     [⟨ConflictType.DEPENDENCY, 0, false, 0⟩] (fun _ => 1) 0 10 5
     (by decide) (by decide) (by decide) (by decide)
     (by with_unfolding_all decide)⟩

/-- Claim C4: the probability the success gate uses equals
`min(0.3 + cycle*0.1, 0.9) * strategy_effectiveness`, where the effectiveness is
`0.9 - 0.1*i` for a strategy at 0-based position `i` of the category's list and `0.5`
for a strategy not in the list; and the gate decides success as
`time_fraction < probability`. -/
theorem claim_C4 (e : Engine) (c : Conflict) (s : ResolutionStrategy) (cycle : Nat)
    (t : ℚ) :
    (apply_resolution_strategy e c s cycle t).success_probability
        = spec_success_probability cycle c.ctype s ∧
    (apply_resolution_strategy e c s cycle t).success
        = decide (t < spec_success_probability cycle c.ctype s) := by
  have heff := strategy_effectiveness_agrees c.ctype s
  constructor
  · show min (0.3 + (cycle : ℚ) * 0.1) 0.9 *
        (if (strategy_map c.ctype).contains s = true then
          (0.9 : ℚ) - ((strategy_map c.ctype).indexOf s : ℚ) * 0.1
        else (0.5 : ℚ)) = spec_success_probability cycle c.ctype s
    rw [heff]
    rfl
  · show decide (t < min (0.3 + (cycle : ℚ) * 0.1) 0.9 *
        (if (strategy_map c.ctype).contains s = true then
          (0.9 : ℚ) - ((strategy_map c.ctype).indexOf s : ℚ) * 0.1
        else (0.5 : ℚ)))
      = decide (t < spec_success_probability cycle c.ctype s)
    rw [heff]
    rfl

/-- Counterexample to Claim C5 as stated: with the engineer-supplied empty lookup
entry (batch list `[]`), the zero-conflict run does return immediately with
`conflicts_resolved = 0` and `cycles_completed = 0`, but its audit log holds THREE
events, not two: `_scan_for_conflicts` records `scan_complete` unconditionally
(line 319) before the early return. -/
theorem claim_C5_counterexample :
    (detect_and_resolve_with_batches default_engine [] (fun _ => 0)
        (fun _ => 0)).engine.audit_trail.length = 3 ∧
    ¬ ((detect_and_resolve_with_batches default_engine [] (fun _ => 0)
        (fun _ => 0)).engine.audit_trail.length = 2) ∧
    (detect_and_resolve_with_batches default_engine [] (fun _ => 0)
        (fun _ => 0)).engine.conflicts_resolved = 0 ∧
    (detect_and_resolve_with_batches default_engine [] (fun _ => 0)
        (fun _ => 0)).engine.cycles_completed = 0 := by
  refine ⟨?_, ?_, ?_, ?_⟩ <;> with_unfolding_all decide

/-- Claim C5 (amended): for every run whose detection phase yields zero conflicts
(audit collection enabled), `run` returns immediately with `resolved_count = 0`,
`cycle_count = 0`, and exactly THREE audit events, in order `engine_start`,
`scan_complete`, `engine_stop`. -/
theorem claim_C5_amended (e0 : Engine) (b : List (ConflictType × Nat))
    (clock : Nat → ℚ) (hashes : Nat → Int)
    (hen : e0.enable_audit_trail = true)
    (hlen : (generate_conflict_batches hashes 0 b).length = 0) :
    (detect_and_resolve_with_batches e0 b clock hashes).engine.conflicts_resolved = 0 ∧
    (detect_and_resolve_with_batches e0 b clock hashes).engine.cycles_completed = 0 ∧
    (detect_and_resolve_with_batches e0 b clock hashes).engine.audit_trail.map
      AuditEvent.event_type = ["engine_start", "scan_complete", "engine_stop"] ∧
    (detect_and_resolve_with_batches e0 b clock hashes).exit = ExitStatus.earlyEmpty :=
  run_batches_zero e0 b clock hashes hlen hen

/-- Witness for the amended C5 at the default engine and the empty batch list. -/
theorem claim_C5_amended_witness :
    default_engine.enable_audit_trail = true ∧
    (generate_conflict_batches (fun _ => 0) 0 []).length = 0 ∧
    (detect_and_resolve_with_batches default_engine [] (fun _ => 0)
        (fun _ => 0)).engine.audit_trail.map AuditEvent.event_type
      = ["engine_start", "scan_complete", "engine_stop"] :=
  ⟨rfl, rfl,
   (claim_C5_amended default_engine [] (fun _ => 0) (fun _ => 0) rfl rfl).2.2.1⟩

/-- Counterexample to Claim C6 as stated: constructing an engine with
`base_frequency = 200 > 100 = max_frequency` succeeds (no `ConfigurationError` is
raised — `__init__` performs no validation at all), and the invalid engine exists
with the parameters stored as-is. -/
theorem claim_C6_counterexample :
    engine_init 200 100 1000 0.001 true
      = Except.ok (mk_engine 200 100 1000 0.001 true) ∧
    (mk_engine 200 100 1000 0.001 true).base_frequency
      > (mk_engine 200 100 1000 0.001 true).max_frequency := by
  constructor
  · rfl
  · with_unfolding_all decide

/-- Claim C6 (amended): construction never fails — for every parameter combination
(including `base_frequency > max_frequency`, `max_cycles ≤ 0`, or a
`convergence_threshold` outside `[0,1]`) the constructor returns an engine storing
the parameters unchanged; no validation happens at construction or run time. -/
theorem claim_C6_amended (bf mf : ℚ) (mc : Int) (th : ℚ) (en : Bool) :
    engine_init bf mf mc th en = Except.ok (mk_engine bf mf mc th en) ∧
    (mk_engine bf mf mc th en).base_frequency = bf ∧
    (mk_engine bf mf mc th en).max_frequency = mf ∧
    (mk_engine bf mf mc th en).max_cycles = mc ∧
    (mk_engine bf mf mc th en).convergence_threshold = th ∧
    (mk_engine bf mf mc th en).enable_audit_trail = en :=
  ⟨rfl, rfl, rfl, rfl, rfl, rfl⟩

/-- Claim C7: `export_audit_trail` fails with `InvalidState` iff no run has completed
or audit collection is disabled — on a freshly constructed engine it always fails;
after a completed run it succeeds when audit collection is enabled and fails when it
is disabled. -/
theorem claim_C7 :
    (∀ (bf mf : ℚ) (mc : Int) (th : ℚ) (en : Bool),
      export_audit_trail (mk_engine bf mf mc th en)
        = Except.error EngineError.invalidState) ∧
    (∀ (e0 : Engine) (target : String) (clock : Nat → ℚ) (hashes : Nat → Int),
      e0.enable_audit_trail = true →
      export_audit_trail (detect_and_resolve_conflicts e0 target clock hashes).engine
        = Except.ok
          (detect_and_resolve_conflicts e0 target clock hashes).engine.audit_trail) ∧
    (∀ (e0 : Engine) (target : String) (clock : Nat → ℚ) (hashes : Nat → Int),
      e0.enable_audit_trail = false →
      export_audit_trail (detect_and_resolve_conflicts e0 target clock hashes).engine
        = Except.error EngineError.invalidState) := by
  refine ⟨?_, ?_, ?_⟩
  · intro bf mf mc th en
    simp [export_audit_trail, mk_engine]
  · intro e0 target clock hashes hen
    have h1 := run_batches_enable e0 (scan_batches target) clock hashes
    have h2 := run_batches_trail_ne e0 (scan_batches target) clock hashes hen
    show export_audit_trail
        (detect_and_resolve_with_batches e0 (scan_batches target) clock hashes).engine
      = Except.ok (detect_and_resolve_with_batches e0 (scan_batches target) clock
          hashes).engine.audit_trail
    simp [export_audit_trail, h1, hen, List.isEmpty_iff, h2]
  · intro e0 target clock hashes hen
    have h1 := run_batches_enable e0 (scan_batches target) clock hashes
    show export_audit_trail
        (detect_and_resolve_with_batches e0 (scan_batches target) clock hashes).engine
      = Except.error EngineError.invalidState
    simp [export_audit_trail, h1, hen]

/-- Witness for C7: after a completed run of the default (audit-enabled) engine the
export succeeds. -/
theorem claim_C7_witness :
    default_engine.enable_audit_trail = true ∧
    export_audit_trail
        (detect_and_resolve_conflicts default_engine "system" (fun _ => 0)
          (fun _ => 0)).engine
      = Except.ok (detect_and_resolve_conflicts default_engine "system" (fun _ => 0)
          (fun _ => 0)).engine.audit_trail :=
  ⟨rfl, claim_C7.2.1 default_engine "system" (fun _ => 0) (fun _ => 0) rfl⟩

/-- Claim C9: every target yields at least 3 detected conflicts (exactly 3 for any
target other than `"system"` and `"repository"`), so the zero-conflict early-return
branch of `detect_and_resolve_conflicts` is unreachable for every input. -/
theorem claim_C9 (e0 : Engine) (target : String) (clock : Nat → ℚ)
    (hashes : Nat → Int) :
    3 ≤ (detect_and_resolve_conflicts e0 target clock hashes).engine.conflicts_detected ∧
    (target ≠ "system" → target ≠ "repository" →
      (detect_and_resolve_conflicts e0 target clock
        hashes).engine.conflicts_detected = 3) ∧
    (detect_and_resolve_conflicts e0 target clock hashes).exit
      ≠ ExitStatus.earlyEmpty := by
  have hd : (detect_and_resolve_conflicts e0 target clock
      hashes).engine.conflicts_detected = ((scan_batches target).map Prod.snd).sum := by
    show (detect_and_resolve_with_batches e0 (scan_batches target) clock
      hashes).engine.conflicts_detected = ((scan_batches target).map Prod.snd).sum
    rw [run_batches_detected, generate_conflict_batches_length]
  have hsum : 3 ≤ ((scan_batches target).map Prod.snd).sum := by
    by_cases h1 : target = "system"
    · simp [scan_batches, h1]
    · by_cases h2 : target = "repository"
      · simp [scan_batches, h1, h2]
      · simp [scan_batches, h1, h2]
  refine ⟨hd ▸ hsum, ?_, ?_⟩
  · intro h1 h2
    rw [hd]
    simp [scan_batches, h1, h2]
  · show (detect_and_resolve_with_batches e0 (scan_batches target) clock hashes).exit
      ≠ ExitStatus.earlyEmpty
    refine run_batches_exit_ne_early e0 (scan_batches target) clock hashes ?_
    rw [generate_conflict_batches_length]
    omega

/-- Witness for C9 at the generic target `"module"`: exactly 3 conflicts. -/
theorem claim_C9_witness :
    ("module" : String) ≠ "system" ∧ ("module" : String) ≠ "repository" ∧
    (detect_and_resolve_conflicts default_engine "module" (fun _ => 0)
      (fun _ => 0)).engine.conflicts_detected = 3 :=
  ⟨by decide, by decide,
   (claim_C9 default_engine "module" (fun _ => 0) (fun _ => 0)).2.1
     (by decide) (by decide)⟩

/-- Claim C10: whenever the resolution loop terminates via the convergence check at
cycle `c` (including the case where every conflict is resolved during cycle `c`),
the returned `RunResult` reports `cycles_completed = c - 1`, because
`self.cycles_completed = cycle` runs only after the convergence check. -/
theorem claim_C10 (e0 : Engine) (target : String) (clock : Nat → ℚ)
    (hashes : Nat → Int) (c : Nat)
    (hx : (detect_and_resolve_conflicts e0 target clock hashes).exit
      = ExitStatus.converged c) :
    (run_results e0 target clock hashes).cycles_completed = c - 1 := by
  show (detect_and_resolve_with_batches e0 (scan_batches target) clock
    hashes).engine.cycles_completed = c - 1
  exact run_batches_converged e0 (scan_batches target) clock hashes c hx

/-- Witness for C10: with the all-zero clock every conflict resolves in cycle 1, the
loop converges at cycle 1, and the reported `cycles_completed` is 0. -/
theorem claim_C10_witness :
    (detect_and_resolve_conflicts default_engine "system" (fun _ => 0)
      (fun _ => 0)).exit = ExitStatus.converged 1 ∧
    (run_results default_engine "system" (fun _ => 0)
      (fun _ => 0)).cycles_completed = 0 :=
  ⟨by with_unfolding_all decide,
   claim_C10 default_engine "system" (fun _ => 0) (fun _ => 0) 1
     (by with_unfolding_all decide)⟩
